import Mathlib

/-!
Verification development for the iomon general-purpose I/O module (`src/gp.c`).

The file embeds, as executable Lean definitions, the two algorithmic cores of
`gp.c`:

* the ADC averaging engine inside `gp_tick` (ring-buffer drain, health
  check / PDCA re-arm, per-channel clamp-accumulate-average), and
* the PWM edge decoder `gp_pwm_check_inputs` (edge detection against the
  previous pin state, wraparound-safe 32-bit timestamp delta, three-region
  piecewise mapping to a 16-bit value),

together with the output-pin change detection at the top of `gp_tick`.
Hardware reads (the PDCA `tcr` register, `gp_get_pins()`, the `AVR32_COUNT`
cycle counter) are passed in as parameters; hardware writes performed by the
re-arm sequence are reported in the result record.
-/

/-- Number of ADC channels (`GP_NUM_ADCS` in `gp.c`). -/
abbrev GP_NUM_ADCS : Nat := 4

/-- Oversampling rate (`GP_ADC_OVERSAMPLE_RATE`). -/
def GP_ADC_OVERSAMPLE_RATE : Nat := 16

/-- Sample ring-buffer capacity (`GP_ADC_BUF_SIZE` = 4 * 16 * 2 * 2 = 256). -/
def GP_ADC_BUF_SIZE : Nat := GP_NUM_ADCS * GP_ADC_OVERSAMPLE_RATE * 2 * 2

/-- Available-sample computation of `gp_tick`, lines 204-212 of `gp.c`:
`samples_read` is the hardware write cursor (`GP_ADC_BUF_SIZE - tcr`) and
`cursor` is the software read cursor `gp_adc_last_sample_idx`.  Note the
wrap branch computes `(GP_ADC_BUF_SIZE - cursor - 1) + samples_read`. -/
def samplesAvail (samples_read cursor : Nat) : Nat :=
  if cursor < samples_read then
    samples_read - cursor
  else if samples_read < cursor then
    (GP_ADC_BUF_SIZE - cursor - 1) + samples_read
  else
    0

/-- Available-sample formula as the specification states it:
`(filled >= cursor) ? (filled - cursor) : (capacity - cursor) + filled`.
Stated from the spec's words only, for comparison with `samplesAvail`. -/
def specAvail (filled cursor : Nat) : Nat :=
  if cursor ≤ filled then filled - cursor else (GP_ADC_BUF_SIZE - cursor) + filled

/-- Sample clamp of `gp_tick`, lines 245-249: negative samples to 0,
samples `>= 2047` to 2047. -/
def clampSample (s : Int) : Int :=
  if s < 0 then 0 else if 2047 ≤ s then 2047 else s

/-- The drain loop of `gp_tick`, lines 239-255: runs `n` times
(`n = samples_avail`), clamping the sample under the cursor, adding it to the
`cursor % GP_NUM_ADCS` channel total, bumping that channel's count, and
advancing the cursor with the `& (GP_ADC_BUF_SIZE - 1)` mask.
Returns (final cursor, totals, counts). -/
def drainLoop (samples : Fin GP_ADC_BUF_SIZE → Int) :
    Nat → Nat → (Fin GP_NUM_ADCS → Nat) → (Fin GP_NUM_ADCS → Nat) →
    Nat × (Fin GP_NUM_ADCS → Nat) × (Fin GP_NUM_ADCS → Nat)
  | 0, cursor, totals, counts => (cursor, totals, counts)
  | n + 1, cursor, totals, counts =>
    let sample := clampSample (samples ⟨cursor % GP_ADC_BUF_SIZE, Nat.mod_lt _ (by decide)⟩)
    let ch : Fin GP_NUM_ADCS := ⟨cursor % GP_NUM_ADCS, Nat.mod_lt _ (by decide)⟩
    drainLoop samples n ((cursor + 1) &&& (GP_ADC_BUF_SIZE - 1))
      (fun i => if i = ch then totals i + sample.toNat else totals i)
      (fun i => if i = ch then counts i + 1 else counts i)

/-- Cursor position at the start of the `j`-th iteration of the drain loop,
when the loop starts at `cursor`: each iteration advances by one and masks
with `GP_ADC_BUF_SIZE - 1`, exactly as `gp.c:253-254` does.  The slot
consumed at iteration `j` is `cursorIter cursor j % GP_ADC_BUF_SIZE` and it
feeds channel `cursorIter cursor j % GP_NUM_ADCS`. -/
def cursorIter (cursor : Nat) : Nat → Nat
  | 0 => cursor
  | j + 1 => (cursorIter cursor j + 1) &&& (GP_ADC_BUF_SIZE - 1)

/-- A mixed sample buffer: slots of channel 0 hold the constant 100, slots
of every other channel hold -5.  Used to exercise the constant-channel
round-trip on a buffer that is not globally constant. -/
def mixedBuf : Fin GP_ADC_BUF_SIZE → Int :=
  fun idx => if idx.val % GP_NUM_ADCS = 0 then 100 else -5

/-- Result of one run of the ADC part of `gp_tick`.  `pdcaReinit` reports the
(memory-address offset, transfer count) written to the PDCA channel when the
re-arm path runs, `consumed` the number of drain-loop iterations, and
`outputs` the per-channel values passed to the `comms_set_*` calls. -/
structure AdcResult where
  rearm : Bool
  pdcaReinit : Option (Nat × Nat)
  cursor : Nat
  consumed : Nat
  counts : Fin GP_NUM_ADCS → Nat
  outputs : Fin GP_NUM_ADCS → Nat

/-- ADC portion of `gp_tick` (lines 186-271 of `gp.c`): computes
`samples_read = GP_ADC_BUF_SIZE - tcr` from the PDCA remaining-transfer
register, the available count, performs the health check / re-arm
(`samples_avail > GP_ADC_BUF_SIZE * 7 / 8 || samples_avail == 0`), drains,
and averages each channel as `(total << 4) / count`, 0 on a zero count. -/
def gp_tick_adc (samples : Fin GP_ADC_BUF_SIZE → Int) (cursor tcr : Nat) : AdcResult :=
  let samples_read := GP_ADC_BUF_SIZE - tcr
  let avail0 := samplesAvail samples_read cursor
  let rearm : Bool := decide (GP_ADC_BUF_SIZE * 7 / 8 < avail0 ∨ avail0 = 0)
  let cursor0 := if rearm then 0 else cursor
  let avail := if rearm then 0 else avail0
  let res := drainLoop samples avail cursor0 (fun _ => 0) (fun _ => 0)
  { rearm := rearm
    pdcaReinit := if rearm then some (0, GP_ADC_BUF_SIZE) else none
    cursor := res.1
    consumed := avail
    counts := res.2.2
    outputs := fun i =>
      if 0 < res.2.2 i then (res.2.1 i <<< 4) / res.2.2 i else 0 }

/-- Per-pin effect of `gp_set_pins` (lines 274-282): pin `i` is set when bit
`i` of `pin_values` is 1, cleared otherwise. -/
def gp_set_pins (pin_values : Nat) : Fin 4 → Bool :=
  fun i => pin_values.testBit i.val

/-- Output-pin update at the top of `gp_tick` (lines 172-178): the new
`last_gpio` together with the pin write performed, if any (`none` when the
comms command equals the previously applied value). -/
def gp_tick_gpout (last_gpio curr_gpio : Nat) : Nat × Option (Fin 4 → Bool) :=
  if curr_gpio ≠ last_gpio then (curr_gpio, some (gp_set_pins curr_gpio))
  else (last_gpio, none)

/-- Unsigned 32-bit subtraction `a - b`, as performed on `uint32_t` values by
`delta = count - gp_pwm_input_state_begin[i]` (line 306 of `gp.c`). -/
def u32sub (a b : Nat) : Nat := (a + 4294967296 - b) % 4294967296

/-- Three-region mapping from a pulse-duration delta to a 16-bit PWM value,
lines 311-317 of `gp.c`. -/
def pwmMap (delta : Nat) : Nat :=
  if delta ≤ 42829 then 0
  else if 108264 ≤ delta then 65535
  else (delta - 42829) &&& 0xffff

/-- State of the PWM edge decoder: `gp_pwm_input_state` (previous pin-level
bitmask), `gp_pwm_input_state_begin` (per-channel timestamp of the last
observed edge) and `gp_pwm_input_values` (last computed PWM values). -/
structure PwmState where
  inputState : Nat
  stateBegin : Fin GP_NUM_ADCS → Nat
  values : Fin GP_NUM_ADCS → Nat

/-- Edge decoder `gp_pwm_check_inputs` (lines 292-327 of `gp.c`).
`cur_state` is the pin snapshot read via `gp_get_pins()` and `count` the
`AVR32_COUNT` counter value, both passed in as parameters.  Bit tests mirror
the C `x & (1u << i)` expressions. -/
def gp_pwm_check_inputs (st : PwmState) (cur_state count : Nat) : PwmState :=
  let pins_changed := cur_state ^^^ st.inputState
  if pins_changed ≠ 0 then
    { inputState := cur_state &&& 0xf
      stateBegin := fun i =>
        if pins_changed.testBit i.val then count else st.stateBegin i
      values := fun i =>
        if pins_changed.testBit i.val && st.inputState.testBit i.val then
          pwmMap (u32sub count (st.stateBegin i))
        else st.values i }
  else st

/-! ### Helper lemmas -/

/-- Masking with `0xffff` is reduction modulo 2^16. -/
theorem land_ffff (x : Nat) : x &&& 0xffff = x % 65536 := by
  have h := Nat.and_pow_two_sub_one_eq_mod x 16
  norm_num at h
  exact h

/-- A clamped sample is at most 2047 (as a natural number). -/
theorem clampSample_toNat_le (s : Int) : (clampSample s).toNat ≤ 2047 := by
  unfold clampSample
  split
  · simp
  · split <;> omega

/-- A clamped sample is nonnegative. -/
theorem clampSample_nonneg (s : Int) : 0 ≤ clampSample s := by
  unfold clampSample
  split
  · simp
  · split <;> omega

/-- A clamped sample is at most 2047 (as an integer). -/
theorem clampSample_le (s : Int) : clampSample s ≤ 2047 := by
  unfold clampSample
  split
  · omega
  · split <;> omega

/-- Clamping an in-range constant is the identity. -/
theorem clampSample_coe (v : Nat) (hv : v ≤ 2047) :
    (clampSample (v : Int)).toNat = v := by
  unfold clampSample
  split
  · omega
  · split <;> omega

/-- Drain-loop invariant: each channel total is bounded by 2047 times the
channel count. -/
theorem drainLoop_totals_le (samples : Fin GP_ADC_BUF_SIZE → Int) :
    ∀ (n cursor : Nat) (totals counts : Fin GP_NUM_ADCS → Nat),
      (∀ c, totals c ≤ 2047 * counts c) →
      ∀ c, (drainLoop samples n cursor totals counts).2.1 c ≤
        2047 * (drainLoop samples n cursor totals counts).2.2 c := by
  intro n
  induction n with
  | zero => intro cursor totals counts h c; exact h c
  | succ m ih =>
    intro cursor totals counts h c
    simp only [drainLoop]
    refine ih _ _ _ (fun d => ?_) c
    by_cases hd : d = ⟨cursor % GP_NUM_ADCS, Nat.mod_lt _ (by decide)⟩
    · simp only [hd, if_pos rfl, if_true]
      have := clampSample_toNat_le
        (samples ⟨cursor % GP_ADC_BUF_SIZE, Nat.mod_lt _ (by decide)⟩)
      have hb := h ⟨cursor % GP_NUM_ADCS, Nat.mod_lt _ (by decide)⟩
      omega
    · simp only [if_neg hd]
      exact h d

/-- Shifting the starting cursor by one drain step shifts the iteration
index of `cursorIter` by one. -/
theorem cursorIter_shift (cursor : Nat) :
    ∀ j, cursorIter ((cursor + 1) &&& (GP_ADC_BUF_SIZE - 1)) j =
      cursorIter cursor (j + 1) := by
  intro j
  induction j with
  | zero => rfl
  | succ k ih =>
    show (cursorIter ((cursor + 1) &&& (GP_ADC_BUF_SIZE - 1)) k + 1) &&&
        (GP_ADC_BUF_SIZE - 1) =
      (cursorIter cursor (k + 1) + 1) &&& (GP_ADC_BUF_SIZE - 1)
    rw [ih]

/-- Drain-loop invariant for one channel of a mixed buffer: if every slot
the loop consumes into channel `c` holds the in-range constant `v`, then
channel `c`'s total stays equal to `v` times channel `c`'s count.  Slots
consumed into other channels are unconstrained. -/
theorem drainLoop_channel_const (samples : Fin GP_ADC_BUF_SIZE → Int)
    (v : Nat) (hv : v ≤ 2047) (c : Fin GP_NUM_ADCS) :
    ∀ (n cursor : Nat) (totals counts : Fin GP_NUM_ADCS → Nat),
      (∀ j, j < n → cursorIter cursor j % GP_NUM_ADCS = c.val →
        samples ⟨cursorIter cursor j % GP_ADC_BUF_SIZE,
          Nat.mod_lt _ (by decide)⟩ = (v : Int)) →
      totals c = v * counts c →
      (drainLoop samples n cursor totals counts).2.1 c =
        v * (drainLoop samples n cursor totals counts).2.2 c := by
  intro n
  induction n with
  | zero => intro cursor totals counts _ h; exact h
  | succ m ih =>
    intro cursor totals counts hsamp h
    simp only [drainLoop]
    refine ih _ _ _ ?_ ?_
    · intro j hj hch
      rw [cursorIter_shift] at hch ⊢
      exact hsamp (j + 1) (by omega) hch
    · by_cases hd : c = ⟨cursor % GP_NUM_ADCS, Nat.mod_lt _ (by decide)⟩
      · have hch : cursorIter cursor 0 % GP_NUM_ADCS = c.val := by
          rw [hd]
          rfl
        have hs0 := hsamp 0 (Nat.succ_pos m) hch
        simp only [cursorIter] at hs0
        simp only [if_pos hd]
        rw [hs0, clampSample_coe v hv, h]
        ring
      · simp only [if_neg hd]
        exact h

/-! ### Claims -/

/-- C1 counterexample: at hardware cursor `filled = 5` and read cursor
`cursor = 10` (a wrapped configuration, `filled < cursor`), the code computes
250 available samples while the spec formula
`(capacity - cursor) + filled` gives 251, so the claimed equality fails. -/
theorem claim_C1_cex :
    samplesAvail 5 10 = 250 ∧ specAvail 5 10 = 251 ∧
      samplesAvail 5 10 ≠ specAvail 5 10 := by
  decide

/-- C1 amended: when `filled >= cursor` the computed available count equals
the spec formula `(filled >= cursor) ? (filled - cursor) : ...`; when
`filled < cursor` the code computes `(capacity - cursor - 1) + filled`,
exactly one less than the spec formula `(capacity - cursor) + filled`. -/
theorem claim_C1_thm (filled cursor : Nat) (hc : cursor < GP_ADC_BUF_SIZE) :
    (cursor ≤ filled → samplesAvail filled cursor = specAvail filled cursor) ∧
    (filled < cursor → samplesAvail filled cursor + 1 = specAvail filled cursor) := by
  unfold samplesAvail specAvail GP_ADC_BUF_SIZE at *
  norm_num at *
  constructor <;> intro h <;> split_ifs <;> omega

/-- C1 witness: the amended relation instantiated at `filled = 5`,
`cursor = 10`. -/
theorem claim_C1_witness :
    (10 : Nat) < GP_ADC_BUF_SIZE ∧ samplesAvail 5 10 + 1 = specAvail 5 10 :=
  ⟨by decide, (claim_C1_thm 5 10 (by decide)).2 (by decide)⟩

/-- C8: for a rising edge at counter value `t0` and a falling edge `d` ticks
later (falling timestamp `(t0 + d) % 2^32`, as read from the wrapping 32-bit
counter), the unsigned 32-bit subtraction used by the decoder recovers `d`
exactly, including when the falling timestamp is numerically smaller than the
rising one. -/
theorem claim_C8_thm (t0 d : Nat) (h0 : t0 < 4294967296) (hd : d < 4294967296) :
    u32sub ((t0 + d) % 4294967296) t0 = d := by
  unfold u32sub
  omega

/-- C8 witness: a pulse of 5 ticks straddling the counter wrap
(`t0 = 2^32 - 1`, falling timestamp 4). -/
theorem claim_C8_witness : u32sub ((4294967295 + 5) % 4294967296) 4294967295 = 5 :=
  claim_C8_thm 4294967295 5 (by decide) (by decide)

/-- C10: the output pins are written (via `gp_set_pins`) exactly when the
comms command differs from the previously applied value; an unchanged
command performs no pin write and leaves the recorded state untouched. -/
theorem claim_C10_thm (last_gpio curr_gpio : Nat) :
    (curr_gpio = last_gpio →
      (gp_tick_gpout last_gpio curr_gpio).2 = none ∧
      (gp_tick_gpout last_gpio curr_gpio).1 = last_gpio) ∧
    (curr_gpio ≠ last_gpio →
      (gp_tick_gpout last_gpio curr_gpio).2 = some (gp_set_pins curr_gpio) ∧
      (gp_tick_gpout last_gpio curr_gpio).1 = curr_gpio) := by
  unfold gp_tick_gpout
  constructor <;> intro h
  · rw [if_neg (by simp [h])]
    exact ⟨rfl, rfl⟩
  · rw [if_pos h]
    exact ⟨rfl, rfl⟩

/-- C10 witness: an unchanged command (3 after 3) writes nothing; a changed
command (5 after 0) writes the decoded pin set. -/
theorem claim_C10_witness :
    ((gp_tick_gpout 3 3).2 = none ∧ (gp_tick_gpout 3 3).1 = 3) ∧
    ((gp_tick_gpout 0 5).2 = some (gp_set_pins 5) ∧ (gp_tick_gpout 0 5).1 = 5) :=
  ⟨(claim_C10_thm 3 3).1 rfl, (claim_C10_thm 0 5).2 (by decide)⟩

/-- C5: for a channel whose previously recorded level was high, a falling
edge with elapsed time `delta = u32sub count begin` yields PWM value 0 when
`delta <= 42829`, 65535 when `delta >= 108264`, and `(delta - 42829) % 65536`
otherwise. -/
theorem claim_C5_thm (st : PwmState) (cur_state count : Nat) (i : Fin GP_NUM_ADCS)
    (hhigh : st.inputState.testBit i.val = true)
    (hfall : cur_state.testBit i.val = false) :
    (u32sub count (st.stateBegin i) ≤ 42829 →
      (gp_pwm_check_inputs st cur_state count).values i = 0) ∧
    (108264 ≤ u32sub count (st.stateBegin i) →
      (gp_pwm_check_inputs st cur_state count).values i = 65535) ∧
    (42829 < u32sub count (st.stateBegin i) →
      u32sub count (st.stateBegin i) < 108264 →
      (gp_pwm_check_inputs st cur_state count).values i =
        (u32sub count (st.stateBegin i) - 42829) % 65536) := by
  have hbit : (cur_state ^^^ st.inputState).testBit i.val = true := by
    rw [Nat.testBit_xor, hfall, hhigh]
    rfl
  have hne : cur_state ^^^ st.inputState ≠ 0 := by
    intro h0
    rw [h0] at hbit
    simp at hbit
  have hval : (gp_pwm_check_inputs st cur_state count).values i =
      pwmMap (u32sub count (st.stateBegin i)) := by
    simp [gp_pwm_check_inputs, hne, hbit, hhigh, hfall]
  refine ⟨?_, ?_, ?_⟩
  · intro h
    rw [hval]
    unfold pwmMap
    rw [if_pos h]
  · intro h
    rw [hval]
    unfold pwmMap
    rw [if_neg (by omega), if_pos h]
  · intro h1 h2
    rw [hval]
    unfold pwmMap
    rw [if_neg (by omega), if_neg (by omega), land_ffff]

/-- C5 witness: previous state high on channel 1 (`state = 15`), falling
snapshot 0, counter 50000 with rising timestamp 0: the middle region gives
`(50000 - 42829) % 65536 = 7171`. -/
theorem claim_C5_witness :
    (15 : Nat).testBit 1 = true ∧ (0 : Nat).testBit 1 = false ∧
    (gp_pwm_check_inputs ⟨15, fun _ => 0, fun _ => 0⟩ 0 50000).values 1 = 7171 := by
  refine ⟨by decide, by decide, ?_⟩
  have h := (claim_C5_thm ⟨15, fun _ => 0, fun _ => 0⟩ 0 50000 1
    (by decide) (by decide)).2.2 (by decide) (by decide)
  rw [h]
  decide

/-- C9: the PWM mapping is monotone non-decreasing in the pulse duration; in
the middle region the `& 0xffff` mask is the identity (the operand is at most
65434, since 108264 - 42829 - 1 = 65434 < 65536), and no duration produces a
value in [65435, 65534]. -/
theorem claim_C9_thm :
    (∀ d1 d2, d1 ≤ d2 → pwmMap d1 ≤ pwmMap d2) ∧
    (∀ d, 42829 < d → d < 108264 →
      (d - 42829) &&& 0xffff = d - 42829 ∧ d - 42829 ≤ 65434) ∧
    (∀ d, ¬(65435 ≤ pwmMap d ∧ pwmMap d ≤ 65534)) := by
  refine ⟨?_, ?_, ?_⟩
  · intro d1 d2 h
    unfold pwmMap
    simp only [land_ffff]
    split_ifs <;> omega
  · intro d h1 h2
    rw [land_ffff]
    constructor <;> omega
  · intro d hc
    unfold pwmMap at hc
    simp only [land_ffff] at hc
    split_ifs at hc <;> omega

/-- C9 witness: monotonicity at 50000 ≤ 50001, mask identity at 50000, and
the value gap at 50000. -/
theorem claim_C9_witness :
    pwmMap 50000 ≤ pwmMap 50001 ∧
    ((50000 - 42829) &&& 0xffff = 50000 - 42829 ∧ 50000 - 42829 ≤ 65434) ∧
    ¬(65435 ≤ pwmMap 50000 ∧ pwmMap 50000 ≤ 65534) :=
  ⟨claim_C9_thm.1 50000 50001 (by decide),
   claim_C9_thm.2.1 50000 (by decide) (by decide),
   claim_C9_thm.2.2 50000⟩

/-- Drain-loop totals bound, specialised to the zero-initialised accumulators
of `gp_tick`. -/
theorem drainLoop_le_zero (samples : Fin GP_ADC_BUF_SIZE → Int)
    (n cursor : Nat) (c : Fin GP_NUM_ADCS) :
    (drainLoop samples n cursor (fun _ => 0) (fun _ => 0)).2.1 c ≤
      2047 * (drainLoop samples n cursor (fun _ => 0) (fun _ => 0)).2.2 c :=
  drainLoop_totals_le samples n cursor _ _ (fun _ => by simp) c

/-- Dividing `(v * k) << 4` by a positive count `k` recovers `v << 4`. -/
theorem mulCountAvg (v k : Nat) (hk : 0 < k) : (v * k) <<< 4 / k = v <<< 4 := by
  rw [Nat.shiftLeft_eq, Nat.shiftLeft_eq]
  have h : v * k * 2 ^ 4 = v * 2 ^ 4 * k := by ring
  rw [h, Nat.mul_div_cancel _ hk]

/-- The per-channel averaging expression is bounded by 32768 whenever the
total is bounded by 2047 times the count. -/
theorem avgExpr_le (total count : Nat) (h : total ≤ 2047 * count) :
    (if 0 < count then (total <<< 4) / count else 0) ≤ 32768 := by
  split_ifs with hc
  · have h16 : total <<< 4 = total * 16 := by
      rw [Nat.shiftLeft_eq]
    rw [h16]
    have h2 : total * 16 ≤ 2047 * 16 * count := by omega
    calc total * 16 / count ≤ 2047 * 16 * count / count := Nat.div_le_div_right h2
      _ = 2047 * 16 := Nat.mul_div_cancel _ hc
      _ ≤ 32768 := by norm_num
  · omega

/-- Effects of the health-check re-arm path of `gp_tick` (lines 214-237):
when the available count exceeds 7/8 of the capacity or is zero, the cycle
re-arms, resets the cursor, reprograms the PDCA and processes nothing.
Shared by the claims about the re-arm path. -/
theorem gp_tick_adc_rearm (samples : Fin GP_ADC_BUF_SIZE → Int) (cursor tcr : Nat)
    (h : GP_ADC_BUF_SIZE * 7 / 8 < samplesAvail (GP_ADC_BUF_SIZE - tcr) cursor ∨
         samplesAvail (GP_ADC_BUF_SIZE - tcr) cursor = 0) :
    (gp_tick_adc samples cursor tcr).rearm = true ∧
    (gp_tick_adc samples cursor tcr).pdcaReinit = some (0, GP_ADC_BUF_SIZE) ∧
    (gp_tick_adc samples cursor tcr).cursor = 0 ∧
    (gp_tick_adc samples cursor tcr).consumed = 0 ∧
    (∀ i, (gp_tick_adc samples cursor tcr).counts i = 0) ∧
    (∀ i, (gp_tick_adc samples cursor tcr).outputs i = 0) := by
  have hr : decide (GP_ADC_BUF_SIZE * 7 / 8 <
      samplesAvail (GP_ADC_BUF_SIZE - tcr) cursor ∨
      samplesAvail (GP_ADC_BUF_SIZE - tcr) cursor = 0) = true := decide_eq_true h
  refine ⟨?_, ?_, ?_, ?_, ?_, ?_⟩ <;>
    simp [gp_tick_adc, hr, drainLoop]

/-- C3: whenever the computed available count exceeds 7/8 of the capacity or
is zero, `gp_tick` re-arms: the read cursor is reset to 0, the PDCA ring
transfer is reprogrammed from the buffer base with full capacity, and zero
samples are consumed and accumulated that cycle (all counts zero and all
outputs zero). -/
theorem claim_C3_thm (samples : Fin GP_ADC_BUF_SIZE → Int) (cursor tcr : Nat)
    (h : GP_ADC_BUF_SIZE * 7 / 8 < samplesAvail (GP_ADC_BUF_SIZE - tcr) cursor ∨
         samplesAvail (GP_ADC_BUF_SIZE - tcr) cursor = 0) :
    (gp_tick_adc samples cursor tcr).rearm = true ∧
    (gp_tick_adc samples cursor tcr).pdcaReinit = some (0, GP_ADC_BUF_SIZE) ∧
    (gp_tick_adc samples cursor tcr).cursor = 0 ∧
    (gp_tick_adc samples cursor tcr).consumed = 0 ∧
    (∀ i, (gp_tick_adc samples cursor tcr).counts i = 0) ∧
    (∀ i, (gp_tick_adc samples cursor tcr).outputs i = 0) :=
  gp_tick_adc_rearm samples cursor tcr h

/-- C3 witness: a cold start with `tcr = 0` (hardware cursor at full
capacity, read cursor 0) has 256 > 224 available and re-arms without
consuming anything. -/
theorem claim_C3_witness :
    (GP_ADC_BUF_SIZE * 7 / 8 < samplesAvail (GP_ADC_BUF_SIZE - 0) 0 ∨
      samplesAvail (GP_ADC_BUF_SIZE - 0) 0 = 0) ∧
    (gp_tick_adc (fun _ => 37) 0 0).rearm = true ∧
    (gp_tick_adc (fun _ => 37) 0 0).pdcaReinit = some (0, GP_ADC_BUF_SIZE) ∧
    (gp_tick_adc (fun _ => 37) 0 0).cursor = 0 ∧
    (gp_tick_adc (fun _ => 37) 0 0).consumed = 0 ∧
    (gp_tick_adc (fun _ => 37) 0 0).counts 0 = 0 ∧
    (gp_tick_adc (fun _ => 37) 0 0).outputs 0 = 0 := by
  have h := claim_C3_thm (fun _ => 37) 0 0 (by decide)
  exact ⟨by decide, h.1, h.2.1, h.2.2.1, h.2.2.2.1, h.2.2.2.2.1 0, h.2.2.2.2.2 0⟩

/-- C2 counterexample: with no new samples (available = 0, here from a fresh
`tcr = GP_ADC_BUF_SIZE`), the call does perform a re-arm — the claim that no
re-arm occurs in either call is false, since `samples_avail == 0` is exactly
one arm of the health-check condition. -/
theorem claim_C2_cex :
    samplesAvail (GP_ADC_BUF_SIZE - GP_ADC_BUF_SIZE) 0 = 0 ∧
    (gp_tick_adc (fun _ => 0) 0 GP_ADC_BUF_SIZE).rearm = true := by
  exact ⟨by decide, by decide⟩

/-- C2 amended: calling the averaging step twice with no new samples between
the calls (available = 0 both times) yields identical all-zero outputs both
times, and a buffer re-arm IS performed in each call (the `available == 0`
stall is one arm of the health check).  After the first call's re-arm the
PDCA remaining count is back at full capacity, so with no new samples the
second call again sees `available = 0`. -/
theorem claim_C2_thm (samples : Fin GP_ADC_BUF_SIZE → Int) (cursor tcr : Nat)
    (h : samplesAvail (GP_ADC_BUF_SIZE - tcr) cursor = 0) :
    (gp_tick_adc samples cursor tcr).rearm = true ∧
    (∀ i, (gp_tick_adc samples cursor tcr).outputs i = 0) ∧
    (gp_tick_adc samples (gp_tick_adc samples cursor tcr).cursor
      GP_ADC_BUF_SIZE).rearm = true ∧
    (∀ i, (gp_tick_adc samples (gp_tick_adc samples cursor tcr).cursor
      GP_ADC_BUF_SIZE).outputs i = 0) ∧
    (∀ i, (gp_tick_adc samples cursor tcr).outputs i =
      (gp_tick_adc samples (gp_tick_adc samples cursor tcr).cursor
        GP_ADC_BUF_SIZE).outputs i) := by
  have h1 := gp_tick_adc_rearm samples cursor tcr (Or.inr h)
  have h2 := gp_tick_adc_rearm samples (gp_tick_adc samples cursor tcr).cursor
    GP_ADC_BUF_SIZE (Or.inr (by rw [h1.2.2.1]; decide))
  exact ⟨h1.1, h1.2.2.2.2.2, h2.1, h2.2.2.2.2.2,
    fun i => by rw [h1.2.2.2.2.2 i, h2.2.2.2.2.2 i]⟩

/-- C2 witness: both calls on a stalled buffer (fresh `tcr` at full capacity)
re-arm and publish zero for channel 0. -/
theorem claim_C2_witness :
    samplesAvail (GP_ADC_BUF_SIZE - GP_ADC_BUF_SIZE) 0 = 0 ∧
    (gp_tick_adc (fun _ => 5) 0 GP_ADC_BUF_SIZE).rearm = true ∧
    (gp_tick_adc (fun _ => 5) 0 GP_ADC_BUF_SIZE).outputs 0 = 0 ∧
    (gp_tick_adc (fun _ => 5) (gp_tick_adc (fun _ => 5) 0 GP_ADC_BUF_SIZE).cursor
      GP_ADC_BUF_SIZE).rearm = true := by
  have h := claim_C2_thm (fun _ => 5) 0 GP_ADC_BUF_SIZE (by decide)
  exact ⟨by decide, h.1, h.2.1 0, h.2.2.1⟩

/-- C4: every raw sample is saturated into [0, 2047] by the clamp before
accumulation, and for every buffer content, cursor and hardware register
value, every per-channel output of the averaging step lies in [0, 32768] —
so the `Assert(adc_totals[i] <= 32768)` in `gp_tick` never fails.
(Outputs are naturals, so 0 is a lower bound by construction.) -/
theorem claim_C4_thm :
    (∀ s : Int, 0 ≤ clampSample s ∧ clampSample s ≤ 2047) ∧
    (∀ (samples : Fin GP_ADC_BUF_SIZE → Int) (cursor tcr : Nat)
      (i : Fin GP_NUM_ADCS),
      (gp_tick_adc samples cursor tcr).outputs i ≤ 32768) := by
  constructor
  · intro s
    exact ⟨clampSample_nonneg s, clampSample_le s⟩
  · intro samples cursor tcr i
    simp only [gp_tick_adc]
    exact avgExpr_le _ _ (drainLoop_le_zero samples _ _ i)

/-- On a cycle that does not re-arm, the consumed count, per-channel counts
and outputs of `gp_tick_adc` are the drain loop's results over the available
count starting at the current cursor. -/
theorem gp_tick_adc_no_rearm (samples : Fin GP_ADC_BUF_SIZE → Int)
    (cursor tcr : Nat)
    (hb : ¬(GP_ADC_BUF_SIZE * 7 / 8 < samplesAvail (GP_ADC_BUF_SIZE - tcr) cursor ∨
      samplesAvail (GP_ADC_BUF_SIZE - tcr) cursor = 0)) :
    (gp_tick_adc samples cursor tcr).consumed =
      samplesAvail (GP_ADC_BUF_SIZE - tcr) cursor ∧
    (∀ i, (gp_tick_adc samples cursor tcr).counts i =
      (drainLoop samples (samplesAvail (GP_ADC_BUF_SIZE - tcr) cursor) cursor
        (fun _ => 0) (fun _ => 0)).2.2 i) ∧
    (∀ i, (gp_tick_adc samples cursor tcr).outputs i =
      if 0 < (drainLoop samples (samplesAvail (GP_ADC_BUF_SIZE - tcr) cursor)
          cursor (fun _ => 0) (fun _ => 0)).2.2 i then
        ((drainLoop samples (samplesAvail (GP_ADC_BUF_SIZE - tcr) cursor) cursor
          (fun _ => 0) (fun _ => 0)).2.1 i <<< 4) /
        (drainLoop samples (samplesAvail (GP_ADC_BUF_SIZE - tcr) cursor) cursor
          (fun _ => 0) (fun _ => 0)).2.2 i
      else 0) := by
  have hf : decide (GP_ADC_BUF_SIZE * 7 / 8 <
      samplesAvail (GP_ADC_BUF_SIZE - tcr) cursor ∨
      samplesAvail (GP_ADC_BUF_SIZE - tcr) cursor = 0) = false := decide_eq_false hb
  refine ⟨?_, ?_, ?_⟩ <;> simp [gp_tick_adc, hf]

/-- C6: if every slot consumed into channel `c` in one averaging cycle holds
the constant raw value `v` (0 ≤ v ≤ 2047) — the slots of the other channels
being arbitrary — then whenever channel `c` accumulates at least one sample
that cycle, its output is exactly `v <<< 4`.  The slot consumed at iteration
`j` is `cursorIter cursor j`, and it feeds channel `c` precisely when its
index is `c` modulo `GP_NUM_ADCS`. -/
theorem claim_C6_thm (samples : Fin GP_ADC_BUF_SIZE → Int) (v cursor tcr : Nat)
    (c : Fin GP_NUM_ADCS) (hv : v ≤ 2047)
    (hsamp : ∀ j, j < (gp_tick_adc samples cursor tcr).consumed →
      cursorIter cursor j % GP_NUM_ADCS = c.val →
      samples ⟨cursorIter cursor j % GP_ADC_BUF_SIZE,
        Nat.mod_lt _ (by decide)⟩ = (v : Int))
    (hc : 0 < (gp_tick_adc samples cursor tcr).counts c) :
    (gp_tick_adc samples cursor tcr).outputs c = v <<< 4 := by
  by_cases hb : GP_ADC_BUF_SIZE * 7 / 8 <
      samplesAvail (GP_ADC_BUF_SIZE - tcr) cursor ∨
      samplesAvail (GP_ADC_BUF_SIZE - tcr) cursor = 0
  · have h0 := (gp_tick_adc_rearm samples cursor tcr hb).2.2.2.2.1 c
    omega
  · obtain ⟨he, hcn, ho⟩ := gp_tick_adc_no_rearm samples cursor tcr hb
    rw [he] at hsamp
    rw [hcn c] at hc
    rw [ho c, if_pos hc,
      drainLoop_channel_const samples v hv c
        (samplesAvail (GP_ADC_BUF_SIZE - tcr) cursor) cursor
        (fun _ => 0) (fun _ => 0) hsamp rfl]
    exact mulCountAvg v _ hc

/-- C6 witness: the mixed buffer (channel 0 slots hold 100, all other slots
hold -5), cursor 0 and four new samples (`tcr = 252`): the only slot consumed
into channel 0 holds 100, channel 0 accumulates one sample, and its output is
`100 <<< 4 = 1600` even though the buffer is not globally constant. -/
theorem claim_C6_witness :
    (100 : Nat) ≤ 2047 ∧
    (∀ j, j < (gp_tick_adc mixedBuf 0 252).consumed →
      cursorIter 0 j % GP_NUM_ADCS = (0 : Fin GP_NUM_ADCS).val →
      mixedBuf ⟨cursorIter 0 j % GP_ADC_BUF_SIZE,
        Nat.mod_lt _ (by decide)⟩ = (100 : Int)) ∧
    0 < (gp_tick_adc mixedBuf 0 252).counts 0 ∧
    (gp_tick_adc mixedBuf 0 252).outputs 0 = 100 <<< 4 :=
  ⟨by decide, by decide, by decide,
   claim_C6_thm mixedBuf 100 0 252 0 (by decide) (by decide) (by decide)⟩

/-- C7: a channel whose per-cycle accumulated sample count is zero publishes
exactly 0 for that cycle. -/
theorem claim_C7_thm (samples : Fin GP_ADC_BUF_SIZE → Int) (cursor tcr : Nat)
    (c : Fin GP_NUM_ADCS)
    (h : (gp_tick_adc samples cursor tcr).counts c = 0) :
    (gp_tick_adc samples cursor tcr).outputs c = 0 := by
  simp only [gp_tick_adc] at h ⊢
  rw [h]
  simp

/-- C7 witness: on a re-arm cycle (fresh `tcr` at full capacity) channel 0
has count 0 and output 0. -/
theorem claim_C7_witness :
    (gp_tick_adc (fun _ => 9) 3 GP_ADC_BUF_SIZE).counts 0 = 0 ∧
    (gp_tick_adc (fun _ => 9) 3 GP_ADC_BUF_SIZE).outputs 0 = 0 :=
  ⟨by decide, claim_C7_thm (fun _ => 9) 3 GP_ADC_BUF_SIZE 0 (by decide)⟩
